import Mathlib

/-!
Verification of the MCP Pinecone web server (`src/web_server.py`).

The server is a FastAPI application exposing a JSON-RPC facade over a
remote Pinecone client.  We shallowly embed the request handler
`mcp_handler`, the lazily initialized client accessor
`get_pinecone_client`, and the data they manipulate.

Modelling conventions:
* JSON values are the inductive `Json`; JSON numbers are modelled as
  integers (every numeric literal the handler manipulates is an int, and
  no claim depends on fractional values).
* Python operations that can raise are `Except PyErr`; an uncaught
  exception corresponds to FastAPI answering HTTP 500, a plain returned
  dict to HTTP 200 (see `http_status`).
* Python `str(e)` of an exception is modelled by the exception's class
  name (`PyErr.toText`); no claim inspects exception message text.
* Python's salted `hash` (which is process-dependent via
  PYTHONHASHSEED) is modelled by a fixed deterministic string hash.
-/

set_option maxHeartbeats 1000000
set_option maxRecDepth 100000

/-- JSON values, as produced by `request.json()`. -/
inductive Json where
  | null : Json
  | bool (b : Bool) : Json
  | num (n : Int) : Json
  | str (s : String) : Json
  | arr (xs : List Json) : Json
  | obj (kvs : List (String × Json)) : Json

/-- Python `==` between a value and a string literal: true exactly when
the value is that string (string/non-string comparison is `False` in
Python, never an error). -/
def isStrEq (j : Json) (s : String) : Bool :=
  match j with
  | .str t => t == s
  | _ => false

/-- Python exceptions that the embedded code can raise.  `exn` stands for
an arbitrary exception coming out of the remote Pinecone client. -/
inductive PyErr where
  | attributeError : PyErr
  | typeError : PyErr
  | keyError (k : String) : PyErr
  | indexError : PyErr
  | valueError : PyErr
  | exn (msg : String) : PyErr
  deriving DecidableEq

/-- Rendering of `str(e)` for an exception: modelled by the class name
(resp. the carried message for remote-client exceptions). -/
def PyErr.toText : PyErr → String
  | .attributeError => "AttributeError"
  | .typeError => "TypeError"
  | .keyError k => "KeyError: " ++ k
  | .indexError => "IndexError"
  | .valueError => "ValueError"
  | .exn msg => msg

/-- First value bound to a key in an association list (Python dicts have
unique keys, so first = only). -/
def objGet : List (String × Json) → String → Option Json
  | [], _ => none
  | (k, v) :: rest, key => if k = key then some v else objGet rest key

/-- `d.get(key, default)` on a dict already known to be a dict. -/
def objGetD (kvs : List (String × Json)) (key : String) (d : Json) : Json :=
  (objGet kvs key).getD d

/-- `x.get(key, default)` on an arbitrary value: raises `AttributeError`
when `x` is not a dict, exactly like Python. -/
def pyGetD (j : Json) (key : String) (d : Json) : Except PyErr Json :=
  match j with
  | .obj kvs => .ok (objGetD kvs key d)
  | _ => .error .attributeError

/-- `x.get(key)` (default `None`). -/
def pyGet (j : Json) (key : String) : Except PyErr Json :=
  pyGetD j key Json.null

/-- Python truthiness of a JSON value. -/
def pyTruthy : Json → Bool
  | .null => false
  | .bool b => b
  | .num n => n ≠ 0
  | .str s => !s.isEmpty
  | .arr xs => !xs.isEmpty
  | .obj kvs => !kvs.isEmpty

/-- `len(x)`: defined for strings, lists and dicts, raises `TypeError`
otherwise. -/
def pyLen : Json → Except PyErr Nat
  | .str s => .ok s.length
  | .arr xs => .ok xs.length
  | .obj kvs => .ok kvs.length
  | _ => .error .typeError

/-- `x[i]` for an integer index `i ≥ 0`. -/
def pyIndex : Json → Nat → Except PyErr Json
  | .arr xs, i =>
    match xs.get? i with
    | some v => .ok v
    | none => .error .indexError
  | .str s, i =>
    if i < s.length then .ok (.str ((s.drop i).take 1)) else .error .indexError
  | .obj _, _ => .error (.keyError "0")
  | _, _ => .error .typeError

/-- `x[key]` for a string key: `KeyError` when missing, `TypeError` when
`x` is not subscriptable by strings. -/
def pySubscript (j : Json) (key : String) : Except PyErr Json :=
  match j with
  | .obj kvs =>
    match objGet kvs key with
    | some v => .ok v
    | none => .error (.keyError key)
  | _ => .error .typeError

/-- `x[:n]` followed by embedding into an f-string.  Strings slice to
strings; lists slice to lists (rendered later); other values raise
`TypeError` like Python. -/
def pySliceStr (j : Json) (n : Nat) : Except PyErr Json :=
  match j with
  | .str s => .ok (.str (s.take n))
  | .arr xs => .ok (.arr (xs.take n))
  | _ => .error .typeError

mutual

/-- `repr(x)` rendering of a JSON value (used inside container
renderings). -/
def pyRepr : Json → String
  | .null => "None"
  | .bool true => "True"
  | .bool false => "False"
  | .num n => toString n
  | .str s => "\x27" ++ s ++ "\x27"
  | .arr xs => "[" ++ pyReprList xs ++ "]"
  | .obj kvs => "\x7b" ++ pyReprObj kvs ++ "\x7d"

/-- Comma-separated `repr` of list elements. -/
def pyReprList : List Json → String
  | [] => ""
  | [x] => pyRepr x
  | x :: rest => pyRepr x ++ ", " ++ pyReprList rest

/-- Comma-separated `repr` of dict entries. -/
def pyReprObj : List (String × Json) → String
  | [] => ""
  | [(k, v)] => "\x27" ++ k ++ "\x27: " ++ pyRepr v
  | (k, v) :: rest => "\x27" ++ k ++ "\x27: " ++ pyRepr v ++ ", " ++ pyReprObj rest

end

/-- `str(x)` / f-string rendering of a JSON value. -/
def pyStr : Json → String
  | .null => "None"
  | .bool true => "True"
  | .bool false => "False"
  | .num n => toString n
  | .str s => s
  | .arr xs => "[" ++ pyReprList xs ++ "]"
  | .obj kvs => "\x7b" ++ pyReprObj kvs ++ "\x7d"

/-- Rendering of a sliced value inside an f-string (`x[:n]` results). -/
def pySlice (j : Json) (n : Nat) : Except PyErr String :=
  (pySliceStr j n).map pyStr

/-- Formatting `f"x:.3f"` for the values the handler can meet; modelled
for integers (JSON numbers are embedded as integers). -/
def pyFormat3f : Json → Except PyErr String
  | .num n => .ok (toString n ++ ".000")
  | .bool true => .ok "1.000"
  | .bool false => .ok "0.000"
  | _ => .error .valueError

/-- Formatting `f"x:.2%"` for the values the handler can meet. -/
def pyFormatPct : Json → Except PyErr String
  | .num n => .ok (toString (n * 100) ++ ".00%")
  | .bool true => .ok "100.00%"
  | .bool false => .ok "0.00%"
  | _ => .error .valueError

/-- Python `hash`, modelled by a fixed deterministic hash (the real one
is salted per process); raises `TypeError` on unhashable containers. -/
def pyHash : Json → Except PyErr Int
  | .str s => .ok (s.data.foldl (fun a c => a * 31 + Int.ofNat c.toNat) 0)
  | .num n => .ok n
  | .bool true => .ok 1
  | .bool false => .ok 0
  | .null => .ok 0
  | .arr _ => .error .typeError
  | .obj _ => .error .typeError

/-- Dict construction with keyword expansion: `{base..., **m}`.  Raises
`TypeError` when `m` is not a mapping; entries of `m` override `base`. -/
def kwMerge (base : List (String × Json)) (m : Json) :
    Except PyErr (List (String × Json)) :=
  match m with
  | .obj mk => .ok (base.filter (fun p => (objGet mk p.1).isNone) ++ mk)
  | _ => .error .typeError

/-- Field lookup on a JSON value expected to be an object. -/
def jsonField (j : Json) (key : String) : Option Json :=
  match j with
  | .obj kvs => objGet kvs key
  | _ => none

/-- The remote Pinecone client as the handler sees it: each operation
the handler invokes, with an arbitrary outcome (`.error` models the call
raising).  `inference_embed` is `pc.pc.inference.embed(model=
"multilingual-e5-large", inputs=[content], parameters=...)` viewed as a
function of `content`, since the other arguments are constants. -/
structure PineconeClient where
  search_records : Json → Json → Except PyErr Json
  inference_embed : Json → Except PyErr Json
  process_document_sync : Json → Except PyErr Json
  index_upsert : Json → Except PyErr Json
  list_documents : Json → Except PyErr Json
  read_document : Json → Except PyErr Json
  get_stats : Except PyErr Json

/-- The uniform success-shaped response every `tools/call` path returns:
`jsonrpc`/`id` plus a `result.content` list holding one text entry. -/
def content_response (idv : Json) (text : String) : Json :=
  Json.obj
    [("jsonrpc", Json.str "2.0"),
     ("id", idv),
     ("result", Json.obj
       [("content", Json.arr
         [Json.obj [("type", Json.str "text"), ("text", Json.str text)]])])]

/-- Response body for an unparsable POST body (`except: return ...`). -/
def invalid_json_response : Json :=
  Json.obj [("error", Json.str "Invalid JSON")]

/-- The static capability descriptor used by `initialize`. -/
def capability_result : Json :=
  Json.obj
    [("protocolVersion", Json.str "2024-11-05"),
     ("capabilities", Json.obj
       [("tools", Json.obj [("listChanged", Json.bool true)]),
        ("resources", Json.obj
          [("subscribe", Json.bool true), ("listChanged", Json.bool true)])]),
     ("serverInfo", Json.obj
       [("name", Json.str "pinecone-mcp-production"),
        ("version", Json.str "1.0.0")])]

/-- Response of the `initialize` method. -/
def init_response (idv : Json) : Json :=
  Json.obj
    [("jsonrpc", Json.str "2.0"), ("id", idv), ("result", capability_result)]

/-- JSON-RPC error response for an unknown method. -/
def method_not_found_response (idv m : Json) : Json :=
  Json.obj
    [("jsonrpc", Json.str "2.0"),
     ("id", idv),
     ("error", Json.obj
       [("code", Json.num (-32601)),
        ("message", Json.str ("Method \x27" ++ pyStr m ++ "\x27 not found"))])]

/-- Static descriptor of the semantic-search tool. -/
def tool_semantic_search : Json :=
  Json.obj
    [("name", Json.str "semantic-search"),
     ("description", Json.str
       "Search for information in the Pinecone knowledge base using semantic similarity"),
     ("inputSchema", Json.obj
       [("type", Json.str "object"),
        ("properties", Json.obj
          [("query", Json.obj
            [("type", Json.str "string"),
             ("description", Json.str "Search query to find relevant information")]),
           ("limit", Json.obj
            [("type", Json.str "integer"),
             ("description", Json.str "Maximum number of results to return"),
             ("default", Json.num 5)])]),
        ("required", Json.arr [Json.str "query"])])]

/-- Static descriptor of the process-document tool. -/
def tool_process_document : Json :=
  Json.obj
    [("name", Json.str "process-document"),
     ("description", Json.str
       "Add a document to the Pinecone knowledge base for future retrieval"),
     ("inputSchema", Json.obj
       [("type", Json.str "object"),
        ("properties", Json.obj
          [("content", Json.obj
            [("type", Json.str "string"),
             ("description", Json.str "The main content of the document")]),
           ("title", Json.obj
            [("type", Json.str "string"),
             ("description", Json.str "Title or identifier for the document")]),
           ("metadata", Json.obj
            [("type", Json.str "object"),
             ("description", Json.str "Additional metadata about the document")])]),
        ("required", Json.arr [Json.str "content"])])]

/-- Static descriptor of the list-documents tool. -/
def tool_list_documents : Json :=
  Json.obj
    [("name", Json.str "list-documents"),
     ("description", Json.str
       "List all documents stored in the Pinecone knowledge base"),
     ("inputSchema", Json.obj
       [("type", Json.str "object"),
        ("properties", Json.obj
          [("limit", Json.obj
            [("type", Json.str "integer"),
             ("description", Json.str "Maximum number of documents to return"),
             ("default", Json.num 10)])])])]

/-- Static descriptor of the read-document tool. -/
def tool_read_document : Json :=
  Json.obj
    [("name", Json.str "read-document"),
     ("description", Json.str
       "Retrieve a specific document by its ID from Pinecone"),
     ("inputSchema", Json.obj
       [("type", Json.str "object"),
        ("properties", Json.obj
          [("document_id", Json.obj
            [("type", Json.str "string"),
             ("description", Json.str
               "Unique identifier of the document to retrieve")])]),
        ("required", Json.arr [Json.str "document_id"])])]

/-- Static descriptor of the pinecone-stats tool. -/
def tool_pinecone_stats : Json :=
  Json.obj
    [("name", Json.str "pinecone-stats"),
     ("description", Json.str
       "Get real statistics about the Pinecone index usage"),
     ("inputSchema", Json.obj
       [("type", Json.str "object"), ("properties", Json.obj [])])]

/-- The hardcoded tool descriptor array of `tools/list`. -/
def static_tools : List Json :=
  [tool_semantic_search, tool_process_document, tool_list_documents,
   tool_read_document, tool_pinecone_stats]

/-- Response of the `tools/list` method. -/
def tools_list_response (idv : Json) : Json :=
  Json.obj
    [("jsonrpc", Json.str "2.0"),
     ("id", idv),
     ("result", Json.obj [("tools", Json.arr static_tools)])]

/-- The five tool names the dispatcher recognizes. -/
def tool_names : List String :=
  ["semantic-search", "process-document", "list-documents",
   "read-document", "pinecone-stats"]

/-- Text of the client-unavailable `tools/call` response. -/
def unavailable_text : String :=
  "❌ Pinecone client not available. Check API credentials and connection."

/-- The client-unavailable `tools/call` response. -/
def unavailable_response (idv : Json) : Json :=
  content_response idv unavailable_text

/-- Text of the fall-through response for an unrecognized tool name. -/
def not_implemented_text (tn : Json) : String :=
  "🔧 Tool \x27" ++ pyStr tn ++ "\x27 called but not implemented yet."

/-- Fall-through response for an unrecognized tool name. -/
def not_implemented_response (tn idv : Json) : Json :=
  content_response idv (not_implemented_text tn)

/-- Text of the outer catch-all handler around the tool dispatch. -/
def unexpected_error_text (tn : Json) (e : PyErr) : String :=
  "❌ Unexpected error executing " ++ pyStr tn ++ ": " ++ e.toText ++
  "\n\nPlease check Pinecone connection and try again."

/-- Response of the outer catch-all handler around the tool dispatch. -/
def unexpected_error_response (tn idv : Json) (e : PyErr) : Json :=
  content_response idv (unexpected_error_text tn e)

/-- Header line of a successful search with results. -/
def found_header (n : Nat) (query : Json) : String :=
  "🔍 Found " ++ toString n ++ " results for: \x27" ++ pyStr query ++ "\x27\n\n"

/-- Text when the search produced no results. -/
def no_results_text (query : Json) : String :=
  "🔍 No results found for: \x27" ++ pyStr query ++
  "\x27\n\nTry different keywords or add more documents to the knowledge base."

/-- Text of the semantic-search failure handler. -/
def search_error_text (query : Json) (e : PyErr) : String :=
  "🔍 Search attempted for: \x27" ++ pyStr query ++ "\x27\n\n❌ Search error: " ++
  e.toText ++ "\n\nTrying alternative search method..."

/-- Formatting of one search result entry. -/
def format_search_item (i : Nat) (result : Json) : Except PyErr String := do
  let score ← pyGetD result "score" (Json.num 0)
  let metadata ← pyGetD result "metadata" (Json.obj [])
  let title ← pyGetD metadata "title" (Json.str ("Document " ++ toString i))
  let contentJ ← pyGetD metadata "content" (Json.str "No content available")
  let content ← pySlice contentJ 200
  let scoreS ← pyFormat3f score
  pure ("**" ++ toString i ++ ". " ++ pyStr title ++ "** (Relevance: " ++
    scoreS ++ ")\n" ++ content ++ "...\n\n")

/-- Formatting of all search result entries, numbered from `i`. -/
def format_search_items (i : Nat) : List Json → Except PyErr String
  | [] => pure ""
  | x :: rest => do
    let s ← format_search_item i x
    let t ← format_search_items (i + 1) rest
    pure (s ++ t)

/-- Formatting of the search result list.  A truthy non-list result makes
`len`/iteration/attribute access raise, like Python. -/
def format_search_results (query results : Json) : Except PyErr String :=
  if pyTruthy results then
    match results with
    | .arr xs =>
      if xs.length > 0 then do
        let body ← format_search_items 1 xs
        pure (found_header xs.length query ++ body)
      else pure (no_results_text query)
    | _ => .error .typeError
  else pure (no_results_text query)

/-- The inner `try` of the semantic-search branch: remote call plus
result formatting. -/
def search_attempt (query lim : Json) (pc : PineconeClient) :
    Except PyErr String := do
  let results ← pc.search_records query lim
  format_search_results query results

/-- The semantic-search branch of `tools/call`. -/
def semantic_search_branch (arguments idv : Json) (pc : PineconeClient) :
    Except PyErr Json :=
  match pyGetD arguments "query" (Json.str "") with
  | .error e => .error e
  | .ok query =>
    match pyGetD arguments "limit" (Json.num 5) with
    | .error e => .error e
    | .ok lim =>
      match search_attempt query lim pc with
      | .ok text => .ok (content_response idv text)
      | .error e => .ok (content_response idv (search_error_text query e))

/-- The upserted vector record of the process-document branch
(`vector_data` in the source): id, raw embedding values, metadata. -/
def vector_data (doc_id : String) (embedding_vector : Json)
    (meta : List (String × Json)) : Json :=
  Json.obj
    [("id", Json.str doc_id),
     ("values", embedding_vector),
     ("metadata", Json.obj meta)]

/-- The document id `f"doc_{int(time.time())}_{abs(hash(content)) % 10000}"`. -/
def doc_id_str (now : Int) (h : Int) : String :=
  "doc_" ++ toString now ++ "_" ++ toString (h.natAbs % 10000)

/-- Document id construction; raises when `content` is unhashable. -/
def mk_doc_id (now : Int) (content : Json) : Except PyErr String :=
  (pyHash content).map (doc_id_str now)

/-- Success text of the direct-embedding path. -/
def stored_text (title : Json) (clen vlen : Nat) (doc_id : String) : String :=
  "✅ Document stored with embeddings!\n\n📝 Title: " ++ pyStr title ++
  "\n📄 Content length: " ++ toString clen ++
  " characters\n🔢 Vector dimensions: " ++ toString vlen ++
  "\n🗂️ Stored in index: memory-index\n🆔 Document ID: " ++ doc_id ++
  "\n\n🎯 Your strategic insight is now searchable!"

/-- Success text of the MCP fallback path. -/
def mcp_processed_text (title : Json) (cslice : String) (mlen : Nat) : String :=
  "✅ Document processed via MCP!\n\n📝 Title: " ++ pyStr title ++
  "\n📄 Content: " ++ cslice ++ "...\n🗂️ Metadata tags: " ++ toString mlen ++
  " fields\n\n🎯 Your knowledge is now stored with proper embeddings!"

/-- Text when both embedding methods failed. -/
def both_failed_text (embed_err mcp_err : PyErr) (title : Json)
    (cslice : String) : String :=
  "❌ Both embedding methods failed:\n\nEmbed API: " ++ embed_err.toText ++
  "\nMCP Method: " ++ mcp_err.toText ++ "\n\nDocument: \x27" ++ pyStr title ++
  "\x27\nContent: " ++ cslice ++ "...\n\nPlease check Pinecone configuration."

/-- Text of the outermost process-document failure handler. -/
def process_failed_text (e : PyErr) (title : Json) (clen : Nat) : String :=
  "❌ Document processing failed: " ++ e.toText ++ "\n\nDocument: \x27" ++
  pyStr title ++ "\x27\nContent length: " ++ toString clen ++
  " characters\n\nPlease check Pinecone connection and try again."

/-- Method 1 of process-document: Pinecone inference embedding, then
upsert of the raw embedding vector (note: the vector is stored exactly
as returned, with no padding or truncation). -/
def pd_method1 (now : Int) (content titleJ metadata idv : Json)
    (pc : PineconeClient) : Except PyErr Json :=
  match pc.inference_embed content with
  | .error e => .error e
  | .ok embedding_response =>
    match pyIndex embedding_response 0 with
    | .error e => .error e
    | .ok e0 =>
      match pySubscript e0 "values" with
      | .error e => .error e
      | .ok embedding_vector =>
        match mk_doc_id now content with
        | .error e => .error e
        | .ok doc_id =>
          match kwMerge [("title", titleJ), ("content", content)] metadata with
          | .error e => .error e
          | .ok merged =>
            match pc.index_upsert
                (Json.arr [vector_data doc_id embedding_vector merged]) with
            | .error e => .error e
            | .ok _ =>
              match pyLen content with
              | .error e => .error e
              | .ok clen =>
                match pyLen embedding_vector with
                | .error e => .error e
                | .ok vlen =>
                  .ok (content_response idv (stored_text titleJ clen vlen doc_id))

/-- Fallback path of process-document: `process_document_sync`. -/
def pd_fallback (content titleJ metadata idv : Json) (pc : PineconeClient) :
    Except PyErr Json :=
  match pc.process_document_sync
      (Json.obj [("content", content), ("title", titleJ),
                 ("metadata", metadata)]) with
  | .error e => .error e
  | .ok _ =>
    match pySlice content 100 with
    | .error e => .error e
    | .ok cslice =>
      match pyLen metadata with
      | .error e => .error e
      | .ok mlen => .ok (content_response idv (mcp_processed_text titleJ cslice mlen))

/-- Handler for the case where both embedding methods failed. -/
def pd_both_failed (embed_err mcp_err : PyErr) (content titleJ idv : Json) :
    Except PyErr Json :=
  match pySlice content 100 with
  | .error e => .error e
  | .ok cslice =>
    .ok (content_response idv (both_failed_text embed_err mcp_err titleJ cslice))

/-- Outermost process-document failure handler (`except process_error`). -/
def pd_process_error (process_err : PyErr) (content titleJ idv : Json) :
    Except PyErr Json :=
  match pyLen content with
  | .error e => .error e
  | .ok clen =>
    .ok (content_response idv (process_failed_text process_err titleJ clen))

/-- The process-document branch of `tools/call`, with its three nested
failure handlers; an exception escaping all of them propagates to the
outer catch-all of the dispatcher. -/
def process_document_branch (now : Int) (arguments idv : Json)
    (pc : PineconeClient) : Except PyErr Json :=
  match pyGetD arguments "content" (Json.str "") with
  | .error e => .error e
  | .ok content =>
    match pyGetD arguments "title" (Json.str "Untitled Document") with
    | .error e => .error e
    | .ok titleJ =>
      match pyGetD arguments "metadata" (Json.obj []) with
      | .error e => .error e
      | .ok metadata =>
        match pd_method1 now content titleJ metadata idv pc with
        | .ok r => .ok r
        | .error embed_err =>
          match pd_fallback content titleJ metadata idv pc with
          | .ok r => .ok r
          | .error mcp_err =>
            match pd_both_failed embed_err mcp_err content titleJ idv with
            | .ok r => .ok r
            | .error process_err => pd_process_error process_err content titleJ idv

/-- Header of the list-documents success text. -/
def list_header (n : Nat) (lim : Json) : String :=
  "📚 Knowledge Base Documents (showing " ++ toString n ++ " of up to " ++
  pyStr lim ++ "):\n\n"

/-- Text when the knowledge base holds no documents. -/
def empty_kb_text : String :=
  "📚 No documents found in the knowledge base.\n\nUse the process-document tool to add your first piece of knowledge!"

/-- Text of the list-documents failure handler. -/
def list_error_text (e : PyErr) : String :=
  "📚 Attempting to list documents...\n\n❌ List error: " ++ e.toText ++
  "\n\nThe knowledge base may be empty or there may be a connection issue."

/-- Formatting of one listed document. -/
def format_document_item (i : Nat) (doc : Json) : Except PyErr String := do
  let doc_id ← pyGetD doc "id" (Json.str "Unknown")
  let metadata ← pyGetD doc "metadata" (Json.obj [])
  let title ← pyGetD metadata "title" (Json.str "Untitled")
  let contentJ ← pyGetD metadata "content" (Json.str "")
  let preview ← pySlice contentJ 100
  pure ("**" ++ toString i ++ ". " ++ pyStr title ++ "**\n   ID: " ++
    pyStr doc_id ++ "\n   Preview: " ++ preview ++ "...\n\n")

/-- Formatting of all listed documents, numbered from `i`. -/
def format_document_items (i : Nat) : List Json → Except PyErr String
  | [] => pure ""
  | x :: rest => do
    let s ← format_document_item i x
    let t ← format_document_items (i + 1) rest
    pure (s ++ t)

/-- Formatting of the document list returned by the remote client. -/
def format_documents (lim documents : Json) : Except PyErr String :=
  if pyTruthy documents then
    match documents with
    | .arr xs =>
      if xs.length > 0 then do
        let body ← format_document_items 1 xs
        pure (list_header xs.length lim ++ body)
      else pure empty_kb_text
    | _ => .error .typeError
  else pure empty_kb_text

/-- The inner `try` of the list-documents branch. -/
def list_attempt (lim : Json) (pc : PineconeClient) : Except PyErr String := do
  let documents ← pc.list_documents lim
  format_documents lim documents

/-- The list-documents branch of `tools/call`. -/
def list_documents_branch (arguments idv : Json) (pc : PineconeClient) :
    Except PyErr Json :=
  match pyGetD arguments "limit" (Json.num 10) with
  | .error e => .error e
  | .ok lim =>
    match list_attempt lim pc with
    | .ok text => .ok (content_response idv text)
    | .error e => .ok (content_response idv (list_error_text e))

/-- Text when the requested document is missing or falsy. -/
def doc_not_found_text (docid : Json) : String :=
  "❌ Document \x27" ++ pyStr docid ++
  "\x27 not found in the knowledge base.\n\nUse list-documents to see available documents."

/-- Text of the read-document failure handler. -/
def read_error_text (docid : Json) (e : PyErr) : String :=
  "📄 Attempting to read document: " ++ pyStr docid ++ "\n\n❌ Read error: " ++
  e.toText ++ "\n\nDocument may not exist or there may be a connection issue."

/-- Formatting of a fetched document. -/
def format_document (docid document : Json) : Except PyErr String :=
  if pyTruthy document then do
    let title ← pyGetD document "title" (Json.str "Untitled")
    let content ← pyGetD document "content" (Json.str "No content available")
    pure ("📄 **" ++ pyStr title ++ "**\n\n" ++ pyStr content ++
      "\n\n---\n**Document ID:** " ++ pyStr docid)
  else pure (doc_not_found_text docid)

/-- The inner `try` of the read-document branch. -/
def read_attempt (docid : Json) (pc : PineconeClient) : Except PyErr String := do
  let document ← pc.read_document docid
  format_document docid document

/-- The read-document branch of `tools/call`. -/
def read_document_branch (arguments idv : Json) (pc : PineconeClient) :
    Except PyErr Json :=
  match pyGetD arguments "document_id" (Json.str "") with
  | .error e => .error e
  | .ok docid =>
    match read_attempt docid pc with
    | .ok text => .ok (content_response idv text)
    | .error e => .ok (content_response idv (read_error_text docid e))

/-- The pinecone-stats success text. -/
def stats_text (tvc : String) (nslen : Nat) (fullS dim : String) : String :=
  "📊 **Live Pinecone Index Statistics**\n\n🗃️ **Total vectors:** " ++ tvc ++
  "\n🏷️ **Namespaces:** " ++ toString nslen ++ "\n💾 **Index fullness:** " ++
  fullS ++ "\n🔧 **Dimension:** " ++ dim ++
  "\n📏 **Metric:** cosine similarity\n🌐 **Index name:** memory-index\n\n✨ **Real-time data from your Pinecone index!**"

/-- Text of the pinecone-stats failure handler. -/
def stats_error_text (e : PyErr) : String :=
  "📊 Attempting to get statistics...\n\n❌ Stats error: " ++ e.toText ++
  "\n\nThere may be a connection issue with Pinecone."

/-- The inner `try` of the pinecone-stats branch. -/
def stats_attempt (pc : PineconeClient) : Except PyErr String := do
  let stats ← pc.get_stats
  let tvc ← pyGetD stats "total_vector_count" (Json.num 0)
  let ns ← pyGetD stats "namespaces" (Json.obj [])
  let nslen ← pyLen ns
  let fullness ← pyGetD stats "index_fullness" (Json.num 0)
  let fullS ← pyFormatPct fullness
  let dim ← pyGetD stats "dimension" (Json.str "Unknown")
  pure (stats_text (pyStr tvc) nslen fullS (pyStr dim))

/-- The pinecone-stats branch of `tools/call` (it ignores arguments). -/
def pinecone_stats_branch (idv : Json) (pc : PineconeClient) :
    Except PyErr Json :=
  match stats_attempt pc with
  | .ok text => .ok (content_response idv text)
  | .error e => .ok (content_response idv (stats_error_text e))

/-- Lifting of a branch outcome into the dispatch: a returned response
is a hit, an exception propagates. -/
def lift_branch : Except PyErr Json → Except PyErr (Option Json)
  | .ok r => .ok (some r)
  | .error e => .error e

/-- The if/elif tool dispatch inside the `try` of `tools/call`.
`.ok none` models falling through every branch (unknown tool name). -/
def try_branches (now : Int) (tn arguments idv : Json) (pc : PineconeClient) :
    Except PyErr (Option Json) :=
  if isStrEq tn "semantic-search" then
    lift_branch (semantic_search_branch arguments idv pc)
  else if isStrEq tn "process-document" then
    lift_branch (process_document_branch now arguments idv pc)
  else if isStrEq tn "list-documents" then
    lift_branch (list_documents_branch arguments idv pc)
  else if isStrEq tn "read-document" then
    lift_branch (read_document_branch arguments idv pc)
  else if isStrEq tn "pinecone-stats" then
    lift_branch (pinecone_stats_branch idv pc)
  else .ok none

/-- The complete tool dispatch: branches, the fall-through
not-implemented response, and the outer catch-all failure handler. -/
def dispatch_tool (now : Int) (tn arguments idv : Json) (pc : PineconeClient) :
    Json :=
  match try_branches now tn arguments idv pc with
  | .ok (some r) => r
  | .ok none => not_implemented_response tn idv
  | .error e => unexpected_error_response tn idv e

/-- The `tools/call` method handler.  Reading `params.name` /
`params.arguments` raises `AttributeError` when `params` is present but
not a dict, before the client-availability check. -/
def tools_call (now : Int) (kvs : List (String × Json))
    (pc? : Option PineconeClient) : Except PyErr Json :=
  match pyGet (objGetD kvs "params" (Json.obj [])) "name" with
  | .error e => .error e
  | .ok tool_name =>
    match pyGetD (objGetD kvs "params" (Json.obj [])) "arguments" (Json.obj []) with
    | .error e => .error e
    | .ok arguments =>
      match pc? with
      | none => .ok (unavailable_response (objGetD kvs "id" Json.null))
      | some pc =>
        .ok (dispatch_tool now tool_name arguments (objGetD kvs "id" Json.null) pc)

/-- Dispatch of `mcp_handler` over a body that parsed to a JSON dict, in
source order: tools/list, tools/call, initialize, unknown method. -/
def handle_obj (now : Int) (kvs : List (String × Json))
    (pc? : Option PineconeClient) : Except PyErr Json :=
  if isStrEq (objGetD kvs "method" Json.null) "tools/list" then
    .ok (tools_list_response (objGetD kvs "id" Json.null))
  else if isStrEq (objGetD kvs "method" Json.null) "tools/call" then
    tools_call now kvs pc?
  else if isStrEq (objGetD kvs "method" Json.null) "initialize" then
    .ok (init_response (objGetD kvs "id" Json.null))
  else
    .ok (method_not_found_response (objGetD kvs "id" Json.null)
      (objGetD kvs "method" Json.null))

/-- The POST / handler.  `body?` is the outcome of `request.json()`
(`none` on a parse failure); `pc?` the outcome of `get_pinecone_client()`
at this request; `now` the wall clock `int(time.time())`.  A body that
parses to a non-dict value makes `body.get("method")` raise
`AttributeError`, which FastAPI turns into an HTTP 500. -/
def mcp_handler (now : Int) (body? : Option Json)
    (pc? : Option PineconeClient) : Except PyErr Json :=
  match body? with
  | none => .ok invalid_json_response
  | some (Json.obj kvs) => handle_obj now kvs pc?
  | some _ => .error .attributeError

/-- HTTP status of a handler outcome: FastAPI answers 200 for a returned
dict and 500 for an uncaught exception. -/
def http_status (r : Except PyErr Json) : Nat :=
  match r with
  | .ok _ => 200
  | .error _ => 500

/-- Whether a status code is a server error. -/
def is_5xx (s : Nat) : Bool :=
  500 ≤ s && s < 600

/-- A success-shaped tool response: a `result` object (and no `error`
field) whose `content` is a one-element list holding a text entry. -/
def is_success_shaped (j : Json) : Bool :=
  match j with
  | .obj kvs =>
    match objGet kvs "error" with
    | some _ => false
    | none =>
      match objGet kvs "result" with
      | some (.obj rkvs) =>
        match objGet rkvs "content" with
        | some (.arr [.obj ckvs]) =>
          (match objGet ckvs "type" with
           | some (.str "text") => true
           | _ => false) &&
          (match objGet ckvs "text" with
           | some (.str _) => true
           | _ => false)
        | _ => false
      | _ => false
  | _ => false

/-- Success shape of a whole handler outcome (a raised exception is
never success-shaped). -/
def is_success_shaped_exc (r : Except PyErr Json) : Bool :=
  match r with
  | .ok j => is_success_shaped j
  | .error _ => false

/-- Modelled from the spec: a JSON-RPC error object, "an object with
numeric error code and message", as the claim about malformed JSON
bodies words it. -/
def is_jsonrpc_error_obj (j : Json) : Bool :=
  match jsonField j "error" with
  | some (.obj ekvs) =>
    (match objGet ekvs "code" with
     | some (.num _) => true
     | _ => false) &&
    (match objGet ekvs "message" with
     | some (.str _) => true
     | _ => false)
  | _ => false

/-- Whether a tool name is one the dispatcher recognizes. -/
def known_tool (tn : Json) : Bool :=
  isStrEq tn "semantic-search" || isStrEq tn "process-document" ||
  isStrEq tn "list-documents" || isStrEq tn "read-document" ||
  isStrEq tn "pinecone-stats"

/-- The tools array of a `tools/list`-shaped response. -/
def tools_of (j : Json) : List Json :=
  match jsonField j "result" with
  | some (.obj rkvs) =>
    match objGet rkvs "tools" with
    | some (.arr ts) => ts
    | _ => []
  | _ => []

/-- The `name` fields of the descriptors in a response's tools array. -/
def tool_names_of (j : Json) : List (Option Json) :=
  (tools_of j).map (fun t => jsonField t "name")

/-- A well-formed tool input schema: an `inputSchema` object of type
`object` with a `properties` object. -/
def schema_well_formed (t : Json) : Bool :=
  match jsonField t "inputSchema" with
  | some (.obj skvs) =>
    (match objGet skvs "type" with
     | some (.str "object") => true
     | _ => false) &&
    (match objGet skvs "properties" with
     | some (.obj _) => true
     | _ => false)
  | _ => false

/-- One call of `get_pinecone_client()`: acting on the module-global
`pinecone_client` (the state), with `construct` the outcome
`PineconeClient()` would have at this call (consulted only when the
global is still `None`).  Returns the new state and the returned handle;
a failed construction leaves the global `None`. -/
def get_pinecone_client {C : Type} (state : Option C)
    (construct : Except PyErr C) : Option C × Option C :=
  match state with
  | some c => (some c, some c)
  | none =>
    match construct with
    | .ok c => (some c, some c)
    | .error _ => (none, none)

/-- A sequence of `get_pinecone_client()` calls: the list of returned
handles and the final state. -/
def run_client_gets {C : Type} (state : Option C) :
    List (Except PyErr C) → List (Option C) × Option C
  | [] => ([], state)
  | o :: os =>
    let step := get_pinecone_client state o
    let rest := run_client_gets step.1 os
    (step.2 :: rest.1, rest.2)

/-- Number of client constructions (successful `PineconeClient()` runs)
over a call sequence. -/
def client_constructions {C : Type} (state : Option C) :
    List (Except PyErr C) → Nat
  | [] => 0
  | o :: os =>
    let step := get_pinecone_client state o
    (match state, o with
     | none, .ok _ => 1
     | _, _ => 0) + client_constructions step.1 os

/-- A concrete remote client whose every operation raises (used to
exercise the failure handlers on concrete inputs). -/
def failing_client : PineconeClient where
  search_records := fun _ _ => .error (.exn "connection reset")
  inference_embed := fun _ => .error (.exn "connection reset")
  process_document_sync := fun _ => .error (.exn "connection reset")
  index_upsert := fun _ => .error (.exn "connection reset")
  list_documents := fun _ => .error (.exn "connection reset")
  read_document := fun _ => .error (.exn "connection reset")
  get_stats := .error (.exn "connection reset")

/-- A 1024-dimensional embedding vector, the native output size of the
multilingual-e5-large model the source requests. -/
def embed_1024 : Json :=
  Json.arr (List.replicate 1024 (Json.num 1))

/-- A concrete remote client whose embedding call returns a
1024-dimensional vector and whose upsert succeeds. -/
def client_1024 : PineconeClient where
  search_records := fun _ _ => .error (.exn "unused")
  inference_embed := fun _ =>
    .ok (Json.arr [Json.obj [("values", embed_1024)]])
  process_document_sync := fun _ => .error (.exn "unused")
  index_upsert := fun _ => .ok Json.null
  list_documents := fun _ => .error (.exn "unused")
  read_document := fun _ => .error (.exn "unused")
  get_stats := .error (.exn "unused")

/-- A concrete remote client whose embedding call returns a
3-dimensional vector and whose upsert succeeds. -/
def client_3 : PineconeClient where
  search_records := fun _ _ => .error (.exn "unused")
  inference_embed := fun _ =>
    .ok (Json.arr [Json.obj
      [("values", Json.arr [Json.num 1, Json.num 2, Json.num 3])]])
  process_document_sync := fun _ => .error (.exn "unused")
  index_upsert := fun _ => .ok Json.null
  list_documents := fun _ => .error (.exn "unused")
  read_document := fun _ => .error (.exn "unused")
  get_stats := .error (.exn "unused")

/-- The scenario request body of the spec: a pinecone-stats call with
id 1. -/
def stats_call_body : List (String × Json) :=
  [("jsonrpc", Json.str "2.0"),
   ("id", Json.num 1),
   ("method", Json.str "tools/call"),
   ("params", Json.obj
     [("name", Json.str "pinecone-stats"),
      ("arguments", Json.obj [])])]

/-- The numeric code of a response's error object, when present. -/
def error_code_of (j : Json) : Option Json :=
  match jsonField j "error" with
  | some (.obj ekvs) => objGet ekvs "code"
  | _ => none

/-- A concrete semantic-search call body (id 3). -/
def search_call_body : List (String × Json) :=
  [("method", Json.str "tools/call"),
   ("id", Json.num 3),
   ("params", Json.obj
     [("name", Json.str "semantic-search"),
      ("arguments", Json.obj [("query", Json.str "hi")])])]

/-- A concrete tools/call body naming an unknown tool (id 4). -/
def unknown_tool_body : List (String × Json) :=
  [("method", Json.str "tools/call"),
   ("id", Json.num 4),
   ("params", Json.obj [("name", Json.str "make-coffee")])]

/-- Concrete process-document arguments: content "hello", title "T". -/
def pd_args : Json :=
  Json.obj [("content", Json.str "hello"), ("title", Json.str "T")]

theorem content_response_shaped (idv : Json) (t : String) :
    is_success_shaped (content_response idv t) = true := rfl

theorem content_response_jsonrpc (idv : Json) (t : String) :
    jsonField (content_response idv t) "jsonrpc" = some (Json.str "2.0") := rfl

theorem content_response_id (idv : Json) (t : String) :
    jsonField (content_response idv t) "id" = some idv := rfl

theorem semantic_search_branch_ok {arguments idv : Json} {pc : PineconeClient}
    {r : Json} (h : semantic_search_branch arguments idv pc = Except.ok r) :
    ∃ t, r = content_response idv t := by
  unfold semantic_search_branch at h
  repeat' split at h
  all_goals first
    | exact Except.noConfusion h
    | exact ⟨_, (Except.ok.inj h).symm⟩

theorem pd_method1_ok {now : Int} {content titleJ metadata idv : Json}
    {pc : PineconeClient} {r : Json}
    (h : pd_method1 now content titleJ metadata idv pc = Except.ok r) :
    ∃ t, r = content_response idv t := by
  unfold pd_method1 at h
  repeat' split at h
  all_goals first
    | exact Except.noConfusion h
    | exact ⟨_, (Except.ok.inj h).symm⟩

theorem pd_fallback_ok {content titleJ metadata idv : Json}
    {pc : PineconeClient} {r : Json}
    (h : pd_fallback content titleJ metadata idv pc = Except.ok r) :
    ∃ t, r = content_response idv t := by
  unfold pd_fallback at h
  repeat' split at h
  all_goals first
    | exact Except.noConfusion h
    | exact ⟨_, (Except.ok.inj h).symm⟩

theorem pd_both_failed_ok {embed_err mcp_err : PyErr} {content titleJ idv : Json}
    {r : Json}
    (h : pd_both_failed embed_err mcp_err content titleJ idv = Except.ok r) :
    ∃ t, r = content_response idv t := by
  unfold pd_both_failed at h
  repeat' split at h
  all_goals first
    | exact Except.noConfusion h
    | exact ⟨_, (Except.ok.inj h).symm⟩

theorem pd_process_error_ok {process_err : PyErr} {content titleJ idv : Json}
    {r : Json}
    (h : pd_process_error process_err content titleJ idv = Except.ok r) :
    ∃ t, r = content_response idv t := by
  unfold pd_process_error at h
  repeat' split at h
  all_goals first
    | exact Except.noConfusion h
    | exact ⟨_, (Except.ok.inj h).symm⟩

theorem process_document_branch_ok {now : Int} {arguments idv : Json}
    {pc : PineconeClient} {r : Json}
    (h : process_document_branch now arguments idv pc = Except.ok r) :
    ∃ t, r = content_response idv t := by
  unfold process_document_branch at h
  repeat' split at h
  all_goals first
    | exact Except.noConfusion h
    | exact pd_method1_ok h
    | exact pd_fallback_ok h
    | exact pd_both_failed_ok h
    | exact pd_process_error_ok h
    | (rename_i hsub; exact (Except.ok.inj h) ▸ pd_method1_ok hsub)
    | (rename_i hsub; exact (Except.ok.inj h) ▸ pd_fallback_ok hsub)
    | (rename_i hsub; exact (Except.ok.inj h) ▸ pd_both_failed_ok hsub)

theorem list_documents_branch_ok {arguments idv : Json} {pc : PineconeClient}
    {r : Json} (h : list_documents_branch arguments idv pc = Except.ok r) :
    ∃ t, r = content_response idv t := by
  unfold list_documents_branch at h
  repeat' split at h
  all_goals first
    | exact Except.noConfusion h
    | exact ⟨_, (Except.ok.inj h).symm⟩

theorem read_document_branch_ok {arguments idv : Json} {pc : PineconeClient}
    {r : Json} (h : read_document_branch arguments idv pc = Except.ok r) :
    ∃ t, r = content_response idv t := by
  unfold read_document_branch at h
  repeat' split at h
  all_goals first
    | exact Except.noConfusion h
    | exact ⟨_, (Except.ok.inj h).symm⟩

theorem pinecone_stats_branch_ok {idv : Json} {pc : PineconeClient}
    {r : Json} (h : pinecone_stats_branch idv pc = Except.ok r) :
    ∃ t, r = content_response idv t := by
  unfold pinecone_stats_branch at h
  repeat' split at h
  all_goals first
    | exact Except.noConfusion h
    | exact ⟨_, (Except.ok.inj h).symm⟩

theorem lift_branch_ok {x : Except PyErr Json} {r : Json}
    (h : lift_branch x = Except.ok (some r)) : x = Except.ok r := by
  cases x with
  | ok a =>
    have := Option.some.inj (Except.ok.inj h)
    rw [this]
  | error e => exact Except.noConfusion h

theorem try_branches_ok {now : Int} {tn arguments idv : Json}
    {pc : PineconeClient} {r : Json}
    (h : try_branches now tn arguments idv pc = Except.ok (some r)) :
    ∃ t, r = content_response idv t := by
  unfold try_branches at h
  split at h
  · exact semantic_search_branch_ok (lift_branch_ok h)
  · split at h
    · exact process_document_branch_ok (lift_branch_ok h)
    · split at h
      · exact list_documents_branch_ok (lift_branch_ok h)
      · split at h
        · exact read_document_branch_ok (lift_branch_ok h)
        · split at h
          · exact pinecone_stats_branch_ok (lift_branch_ok h)
          · exact Option.noConfusion (Except.ok.inj h)

theorem dispatch_tool_content (now : Int) (tn arguments idv : Json)
    (pc : PineconeClient) :
    ∃ t, dispatch_tool now tn arguments idv pc = content_response idv t := by
  unfold dispatch_tool
  cases htb : try_branches now tn arguments idv pc with
  | ok o =>
    cases o with
    | some r =>
      obtain ⟨t, ht⟩ := try_branches_ok htb
      exact ⟨t, ht⟩
    | none => exact ⟨_, rfl⟩
  | error e => exact ⟨_, rfl⟩

theorem tools_call_ok {now : Int} {kvs : List (String × Json)}
    {pc? : Option PineconeClient} {j : Json}
    (h : tools_call now kvs pc? = Except.ok j) :
    ∃ t, j = content_response (objGetD kvs "id" Json.null) t := by
  unfold tools_call at h
  split at h
  · exact Except.noConfusion h
  · split at h
    · exact Except.noConfusion h
    · split at h
      · exact ⟨_, (Except.ok.inj h).symm⟩
      · rename_i pc
        obtain ⟨t, ht⟩ :=
          dispatch_tool_content now _ _ (objGetD kvs "id" Json.null) pc
        rw [← Except.ok.inj h, ht]
        exact ⟨t, rfl⟩

/-- C1: every request whose body is a JSON dict with method `tools/list`
is answered, for any wall clock and any remote-client state, with the
static result object whose tools array is exactly the five hardcoded
descriptors (semantic-search, process-document, list-documents,
read-document, pinecone-stats), each carrying a well-formed input
schema; only the request's id is echoed into the response. -/
theorem c1_tools_list_static (now : Int) (kvs : List (String × Json))
    (pc? : Option PineconeClient)
    (hm : objGetD kvs "method" Json.null = Json.str "tools/list") :
    mcp_handler now (some (Json.obj kvs)) pc?
      = Except.ok (tools_list_response (objGetD kvs "id" Json.null)) ∧
    tools_of (tools_list_response (objGetD kvs "id" Json.null)) = static_tools ∧
    tool_names_of (tools_list_response (objGetD kvs "id" Json.null))
      = [some (Json.str "semantic-search"), some (Json.str "process-document"),
         some (Json.str "list-documents"), some (Json.str "read-document"),
         some (Json.str "pinecone-stats")] ∧
    (tools_of (tools_list_response (objGetD kvs "id" Json.null))).all
      schema_well_formed = true := by
  refine ⟨?_, rfl, rfl, rfl⟩
  show handle_obj now kvs pc? = _
  unfold handle_obj
  rw [hm]
  rfl

/-- Witness for C1 at a concrete request. -/
theorem c1_witness :
    mcp_handler 0
        (some (Json.obj [("method", Json.str "tools/list"), ("id", Json.num 1)]))
        none
      = Except.ok (tools_list_response (Json.num 1)) ∧
    tools_of (tools_list_response (Json.num 1)) = static_tools ∧
    tool_names_of (tools_list_response (Json.num 1))
      = [some (Json.str "semantic-search"), some (Json.str "process-document"),
         some (Json.str "list-documents"), some (Json.str "read-document"),
         some (Json.str "pinecone-stats")] ∧
    (tools_of (tools_list_response (Json.num 1))).all schema_well_formed = true :=
  c1_tools_list_static 0
    [("method", Json.str "tools/list"), ("id", Json.num 1)] none rfl

/-- C2 (amended): when the remote client is unavailable, every
`tools/call` request whose `params` field is absent or a JSON dict is
answered HTTP 200 with the success-shaped unavailability text and the
request id echoed, and no exception is raised.  (The amendment excludes
bodies whose `params` is a non-dict value, for which reading
`params.name` raises before the availability check; see the
counterexample.) -/
theorem c2_unavailable_amended (now : Int) (kvs pkvs : List (String × Json))
    (hm : objGetD kvs "method" Json.null = Json.str "tools/call")
    (hp : objGetD kvs "params" (Json.obj []) = Json.obj pkvs) :
    mcp_handler now (some (Json.obj kvs)) none
      = Except.ok (content_response (objGetD kvs "id" Json.null)
          unavailable_text) ∧
    http_status (mcp_handler now (some (Json.obj kvs)) none) = 200 ∧
    is_success_shaped (content_response (objGetD kvs "id" Json.null)
        unavailable_text) = true := by
  have h1 : mcp_handler now (some (Json.obj kvs)) none
      = Except.ok (content_response (objGetD kvs "id" Json.null)
          unavailable_text) := by
    show handle_obj now kvs none = _
    unfold handle_obj tools_call
    rw [hm, hp]
    rfl
  refine ⟨h1, ?_, rfl⟩
  rw [h1]
  rfl

/-- Witness for C2: the spec's scenario request (pinecone-stats call,
id 1) against the unavailable client. -/
theorem c2_witness :
    mcp_handler 0 (some (Json.obj stats_call_body)) none
      = Except.ok (content_response (Json.num 1) unavailable_text) ∧
    http_status (mcp_handler 0 (some (Json.obj stats_call_body)) none) = 200 ∧
    is_success_shaped (content_response (Json.num 1) unavailable_text) = true :=
  c2_unavailable_amended 0 stats_call_body
    [("name", Json.str "pinecone-stats"), ("arguments", Json.obj [])] rfl rfl

/-- Counterexample to C2 as stated: a `tools/call` request with a
non-dict `params` raises AttributeError (HTTP 500) even though the
remote client is unavailable. -/
theorem c2_counterexample :
    mcp_handler 0
        (some (Json.obj
          [("method", Json.str "tools/call"), ("params", Json.num 5)])) none
      = Except.error PyErr.attributeError ∧
    http_status (mcp_handler 0
        (some (Json.obj
          [("method", Json.str "tools/call"), ("params", Json.num 5)])) none)
      = 500 :=
  ⟨rfl, rfl⟩

/-- C3 (amended): a POST body that fails to parse as JSON is answered
HTTP 200 (never 5xx) with the object containing the single string field
`error: "Invalid JSON"` — an error-keyed object, but not a JSON-RPC
error object with numeric code and message. -/
theorem c3_invalid_json_amended (now : Int) (pc? : Option PineconeClient) :
    mcp_handler now none pc? = Except.ok invalid_json_response ∧
    jsonField invalid_json_response "error" = some (Json.str "Invalid JSON") ∧
    http_status (mcp_handler now none pc?) = 200 ∧
    is_5xx (http_status (mcp_handler now none pc?)) = false :=
  ⟨rfl, rfl, rfl, rfl⟩

/-- Counterexample to C3 as stated: the invalid-JSON response is not an
object with a numeric error code and message — its `error` field is the
plain string "Invalid JSON". -/
theorem c3_counterexample :
    mcp_handler 0 none none = Except.ok invalid_json_response ∧
    is_jsonrpc_error_obj invalid_json_response = false ∧
    error_code_of invalid_json_response = none :=
  ⟨rfl, rfl, rfl⟩

/-- C4: a JSON-dict body whose method is none of tools/list, tools/call
and initialize is answered with a JSON-RPC error object carrying code
exactly -32601 and the request id echoed. -/
theorem c4_unknown_method (now : Int) (kvs : List (String × Json))
    (pc? : Option PineconeClient)
    (h1 : isStrEq (objGetD kvs "method" Json.null) "tools/list" = false)
    (h2 : isStrEq (objGetD kvs "method" Json.null) "tools/call" = false)
    (h3 : isStrEq (objGetD kvs "method" Json.null) "initialize" = false) :
    mcp_handler now (some (Json.obj kvs)) pc?
      = Except.ok (method_not_found_response (objGetD kvs "id" Json.null)
          (objGetD kvs "method" Json.null)) ∧
    error_code_of (method_not_found_response (objGetD kvs "id" Json.null)
        (objGetD kvs "method" Json.null)) = some (Json.num (-32601)) ∧
    jsonField (method_not_found_response (objGetD kvs "id" Json.null)
        (objGetD kvs "method" Json.null)) "id"
      = some (objGetD kvs "id" Json.null) := by
  refine ⟨?_, rfl, rfl⟩
  show handle_obj now kvs pc? = _
  unfold handle_obj
  rw [h1, h2, h3]
  rfl

/-- Witness for C4 at a concrete unknown method. -/
theorem c4_witness :
    mcp_handler 0
        (some (Json.obj
          [("method", Json.str "resources/list"), ("id", Json.num 7)])) none
      = Except.ok (method_not_found_response (Json.num 7)
          (Json.str "resources/list")) ∧
    error_code_of (method_not_found_response (Json.num 7)
        (Json.str "resources/list")) = some (Json.num (-32601)) ∧
    jsonField (method_not_found_response (Json.num 7)
        (Json.str "resources/list")) "id" = some (Json.num 7) :=
  c4_unknown_method 0
    [("method", Json.str "resources/list"), ("id", Json.num 7)] none
    rfl rfl rfl

/-- C5: a `tools/call` naming one of the five tools, with the remote
client available, is always answered HTTP 200 with a success-shaped
result (one text content entry): every exception raised inside the
tool's branch is caught by the branch's own failure handler or the
outer catch-all, never surfaced as a JSON-RPC error object or a
propagated exception. -/
theorem c5_tool_errors_swallowed (now : Int)
    (kvs pkvs : List (String × Json)) (pc : PineconeClient) (nm : String)
    (hm : objGetD kvs "method" Json.null = Json.str "tools/call")
    (hp : objGetD kvs "params" (Json.obj []) = Json.obj pkvs)
    (_hn : objGetD pkvs "name" Json.null = Json.str nm)
    (_h5 : nm ∈ tool_names) :
    is_success_shaped_exc (mcp_handler now (some (Json.obj kvs)) (some pc))
      = true ∧
    http_status (mcp_handler now (some (Json.obj kvs)) (some pc)) = 200 := by
  have hrun : mcp_handler now (some (Json.obj kvs)) (some pc)
      = Except.ok (dispatch_tool now (objGetD pkvs "name" Json.null)
          (objGetD pkvs "arguments" (Json.obj []))
          (objGetD kvs "id" Json.null) pc) := by
    show handle_obj now kvs (some pc) = _
    unfold handle_obj tools_call
    rw [hm, hp]
    rfl
  obtain ⟨t, ht⟩ := dispatch_tool_content now (objGetD pkvs "name" Json.null)
    (objGetD pkvs "arguments" (Json.obj [])) (objGetD kvs "id" Json.null) pc
  constructor
  · rw [hrun]
    show is_success_shaped (dispatch_tool now _ _ _ pc) = true
    rw [ht]
    exact content_response_shaped _ _
  · rw [hrun]
    rfl

/-- Witness for C5: a semantic-search call against a client whose every
remote operation raises still yields a success-shaped 200 response. -/
theorem c5_witness :
    ("semantic-search" ∈ tool_names) ∧
    is_success_shaped_exc
        (mcp_handler 0 (some (Json.obj search_call_body))
          (some failing_client)) = true ∧
    http_status (mcp_handler 0 (some (Json.obj search_call_body))
        (some failing_client)) = 200 :=
  ⟨by decide,
   (c5_tool_errors_swallowed 0 search_call_body
     [("name", Json.str "semantic-search"),
      ("arguments", Json.obj [("query", Json.str "hi")])]
     failing_client "semantic-search" rfl rfl rfl (by decide)).1,
   (c5_tool_errors_swallowed 0 search_call_body
     [("name", Json.str "semantic-search"),
      ("arguments", Json.obj [("query", Json.str "hi")])]
     failing_client "semantic-search" rfl rfl rfl (by decide)).2⟩

/-- C6 (amended): the embedding vector stored with a processed document
is exactly the embed API's returned values, unchanged: the handler
applies no zero-padding and no truncation, so the stored and reported
dimensionality equal the model's native output size, whatever it is
(1536 only when the model natively returns 1536). -/
theorem c6_no_padding (now : Int) (idv titleJ : Json) (c : String)
    (akvs mkvs merged : List (String × Json)) (did : String)
    (pc : PineconeClient) (resp e0 u : Json) (vs : List Json)
    (hc : objGetD akvs "content" (Json.str "") = Json.str c)
    (ht : objGetD akvs "title" (Json.str "Untitled Document") = titleJ)
    (hmd : objGetD akvs "metadata" (Json.obj []) = Json.obj mkvs)
    (hembed : pc.inference_embed (Json.str c) = Except.ok resp)
    (hidx : pyIndex resp 0 = Except.ok e0)
    (hvals : pySubscript e0 "values" = Except.ok (Json.arr vs))
    (hdid : mk_doc_id now (Json.str c) = Except.ok did)
    (hmerge : kwMerge [("title", titleJ), ("content", Json.str c)]
        (Json.obj mkvs) = Except.ok merged)
    (hupsert : pc.index_upsert
        (Json.arr [vector_data did (Json.arr vs) merged]) = Except.ok u) :
    process_document_branch now (Json.obj akvs) idv pc
      = Except.ok (content_response idv
          (stored_text titleJ c.length vs.length did)) ∧
    jsonField (vector_data did (Json.arr vs) merged) "values"
      = some (Json.arr vs) := by
  have h1 : pd_method1 now (Json.str c) titleJ (Json.obj mkvs) idv pc
      = Except.ok (content_response idv
          (stored_text titleJ c.length vs.length did)) := by
    simp only [pd_method1, hembed, hidx, hvals, hdid, hmerge, hupsert, pyLen]
  constructor
  · simp only [process_document_branch, pyGetD, hc, ht, hmd, h1]
  · rfl

/-- Witness for C6: a 3-dimensional embed response is stored and
reported as 3-dimensional. -/
theorem c6_witness :
    process_document_branch 5 pd_args (Json.num 2) client_3
      = Except.ok (content_response (Json.num 2)
          (stored_text (Json.str "T") 5 3 "doc_5_2322")) ∧
    jsonField (vector_data "doc_5_2322"
        (Json.arr [Json.num 1, Json.num 2, Json.num 3])
        [("title", Json.str "T"), ("content", Json.str "hello")]) "values"
      = some (Json.arr [Json.num 1, Json.num 2, Json.num 3]) :=
  c6_no_padding 5 (Json.num 2) (Json.str "T") "hello"
    [("content", Json.str "hello"), ("title", Json.str "T")] []
    [("title", Json.str "T"), ("content", Json.str "hello")] "doc_5_2322"
    client_3 (Json.arr [Json.obj [("values",
      Json.arr [Json.num 1, Json.num 2, Json.num 3])]])
    (Json.obj [("values", Json.arr [Json.num 1, Json.num 2, Json.num 3])])
    Json.null [Json.num 1, Json.num 2, Json.num 3]
    rfl rfl rfl rfl rfl rfl rfl rfl rfl

/-- Counterexample to C6 as stated: a process-document call whose embed
response is the model's native 1024-dimensional vector stores and
reports a 1024-dimensional vector — not 1536, and no padding or
truncation happens. -/
theorem c6_counterexample :
    process_document_branch 100 pd_args (Json.num 1) client_1024
      = Except.ok (content_response (Json.num 1)
          (stored_text (Json.str "T") 5 1024 "doc_100_2322")) ∧
    jsonField (vector_data "doc_100_2322" embed_1024
        [("title", Json.str "T"), ("content", Json.str "hello")]) "values"
      = some embed_1024 ∧
    pyLen embed_1024 = Except.ok 1024 ∧
    (1024 : Nat) ≠ 1536 :=
  ⟨rfl, rfl, rfl, by decide⟩

theorem client_constructions_some {C : Type} (c : C)
    (os : List (Except PyErr C)) :
    client_constructions (some c) os = 0 := by
  induction os with
  | nil => rfl
  | cons o os ih =>
    simp only [client_constructions, get_pinecone_client, Nat.zero_add]
    exact ih

theorem run_client_gets_some {C : Type} (c : C)
    (os : List (Except PyErr C)) :
    run_client_gets (some c) os = (os.map (fun _ => some c), some c) := by
  induction os with
  | nil => rfl
  | cons o os ih =>
    simp only [run_client_gets, get_pinecone_client, List.map, ih]

/-- C8: across any sequence of `get_pinecone_client()` calls starting
from the uninitialized global, at most one client construction ever
succeeds, and once a handle exists every later call returns that same
handle and never invalidates or re-creates it.  (Failed construction
attempts leave the global `None` and create no client.) -/
theorem c8_lazy_singleton (C : Type) (os : List (Except PyErr C)) :
    client_constructions (none : Option C) os ≤ 1 ∧
    ∀ (c : C) (os2 : List (Except PyErr C)),
      run_client_gets (some c) os2 = (os2.map (fun _ => some c), some c) := by
  constructor
  · induction os with
    | nil => exact Nat.zero_le 1
    | cons o os ih =>
      cases o with
      | ok c =>
        simp only [client_constructions, get_pinecone_client,
          client_constructions_some]
        exact Nat.le_refl 1
      | error e =>
        simpa only [client_constructions, get_pinecone_client,
          Nat.zero_add] using ih
  · intro c os2
    exact run_client_gets_some c os2

/-- C9 (amended): every response `mcp_handler` actually returns for a
JSON-dict body (no uncaught exception) carries `jsonrpc: "2.0"` and the
request's id (null when absent).  The amendment excludes bodies parsing
to non-dict JSON, for which the handler raises AttributeError (HTTP
500) instead of returning any envelope; the invalid-JSON response also
lacks the fields, as the claim says. -/
theorem c9_envelope_amended (now : Int) (kvs : List (String × Json))
    (pc? : Option PineconeClient) (j : Json)
    (h : mcp_handler now (some (Json.obj kvs)) pc? = Except.ok j) :
    jsonField j "jsonrpc" = some (Json.str "2.0") ∧
    jsonField j "id" = some (objGetD kvs "id" Json.null) := by
  have h' : handle_obj now kvs pc? = Except.ok j := h
  unfold handle_obj at h'
  split at h'
  · rw [← Except.ok.inj h']
    exact ⟨rfl, rfl⟩
  · split at h'
    · obtain ⟨t, ht⟩ := tools_call_ok h'
      rw [ht]
      exact ⟨rfl, rfl⟩
    · split at h'
      · rw [← Except.ok.inj h']
        exact ⟨rfl, rfl⟩
      · rw [← Except.ok.inj h']
        exact ⟨rfl, rfl⟩

/-- Witness for C9 at a concrete tools/list request. -/
theorem c9_witness :
    jsonField (tools_list_response (Json.num 9)) "jsonrpc"
      = some (Json.str "2.0") ∧
    jsonField (tools_list_response (Json.num 9)) "id" = some (Json.num 9) :=
  c9_envelope_amended 0
    [("method", Json.str "tools/list"), ("id", Json.num 9)] none
    (tools_list_response (Json.num 9)) rfl

/-- Counterexample to C9 as stated: a body parsing to a JSON array (not
a dict) gets no response envelope at all — the handler raises
AttributeError and FastAPI answers 500. -/
theorem c9_counterexample :
    mcp_handler 0 (some (Json.arr [Json.num 1, Json.num 2])) none
      = Except.error PyErr.attributeError ∧
    http_status (mcp_handler 0 (some (Json.arr [Json.num 1, Json.num 2])) none)
      = 500 :=
  ⟨rfl, rfl⟩

/-- C10: a `tools/call` with the remote client available whose
`params.name` is missing or not one of the five known tool names is
answered with the success-shaped not-implemented text response (id
echoed), never a JSON-RPC error object. -/
theorem c10_unknown_tool (now : Int) (kvs pkvs : List (String × Json))
    (pc : PineconeClient)
    (hm : objGetD kvs "method" Json.null = Json.str "tools/call")
    (hp : objGetD kvs "params" (Json.obj []) = Json.obj pkvs)
    (hunknown : known_tool (objGetD pkvs "name" Json.null) = false) :
    mcp_handler now (some (Json.obj kvs)) (some pc)
      = Except.ok (not_implemented_response (objGetD pkvs "name" Json.null)
          (objGetD kvs "id" Json.null)) ∧
    is_success_shaped (not_implemented_response (objGetD pkvs "name" Json.null)
        (objGetD kvs "id" Json.null)) = true ∧
    error_code_of (not_implemented_response (objGetD pkvs "name" Json.null)
        (objGetD kvs "id" Json.null)) = none := by
  refine ⟨?_, content_response_shaped _ _, rfl⟩
  have hrun : mcp_handler now (some (Json.obj kvs)) (some pc)
      = Except.ok (dispatch_tool now (objGetD pkvs "name" Json.null)
          (objGetD pkvs "arguments" (Json.obj []))
          (objGetD kvs "id" Json.null) pc) := by
    show handle_obj now kvs (some pc) = _
    unfold handle_obj tools_call
    rw [hm, hp]
    rfl
  rw [hrun]
  unfold known_tool at hunknown
  simp only [Bool.or_eq_false_iff] at hunknown
  obtain ⟨⟨⟨⟨e1, e2⟩, e3⟩, e4⟩, e5⟩ := hunknown
  have htb : try_branches now (objGetD pkvs "name" Json.null)
      (objGetD pkvs "arguments" (Json.obj []))
      (objGetD kvs "id" Json.null) pc = Except.ok none := by
    unfold try_branches
    rw [e1, e2, e3, e4, e5]
    rfl
  unfold dispatch_tool
  rw [htb]

/-- Witness for C10 at a concrete unknown tool name. -/
theorem c10_witness :
    mcp_handler 0 (some (Json.obj unknown_tool_body)) (some failing_client)
      = Except.ok (not_implemented_response (Json.str "make-coffee")
          (Json.num 4)) ∧
    is_success_shaped (not_implemented_response (Json.str "make-coffee")
        (Json.num 4)) = true ∧
    error_code_of (not_implemented_response (Json.str "make-coffee")
        (Json.num 4)) = none :=
  c10_unknown_tool 0 unknown_tool_body
    [("name", Json.str "make-coffee")] failing_client rfl rfl rfl
